import Mathlib

/-!
Credential verification in `app.js`.

A shallow embedding of the authentication code of `src/app.js`:

* `Database.query` (lines 37-44), the promisified driver call;
* `validPassport` / `genPassword` (lines 115-124), the password helpers;
* the local-strategy verify callback (lines 134-152);
* `passport.serializeUser` / `passport.deserializeUser` (lines 156-171).

JavaScript values are a small first-order datatype, callbacks that the code
only *calls* (`done`, `cb`, `console.log`) are recorded in an event trace, and
the external collaborators (the MySQL driver, `bcrypt`, the symbol `User`)
are the fields of a `World`, over which every theorem quantifies.
-/

namespace AppJs

/-! ## JavaScript values -/

/-- The JavaScript values that flow through the authentication code. -/
inductive JsVal where
  | undefined
  | null
  | bool (b : Bool)
  | num (n : Int)
  | str (s : String)
  | obj (fields : List (String × JsVal))
  | error (name : String) (message : String)
  deriving Repr

/-- JavaScript `ToBoolean`: what `if (v)` and `!v` test. -/
def truthy : JsVal → Bool
  | .undefined => false
  | .null => false
  | .bool b => b
  | .num n => n != 0
  | .str s => s != ""
  | .obj _ => true
  | .error _ _ => true

/-- Lookup of an own property in a field list. -/
def lookupField (key : String) : List (String × JsVal) → JsVal
  | [] => .undefined
  | (k, v) :: rest => if k = key then v else lookupField key rest

/-- Property read `v.key`: a `TypeError` on `undefined` and `null`, the field
(or `undefined`) on an object, `undefined` on the other primitives. -/
def getProp (v : JsVal) (key : String) : Except JsVal JsVal :=
  match v with
  | .undefined => .error (.error "TypeError" ("Cannot read property " ++ key ++ " of undefined"))
  | .null => .error (.error "TypeError" ("Cannot read property " ++ key ++ " of null"))
  | .obj fields => .ok (lookupField key fields)
  | _ => .ok .undefined

/-- Array read `rows[0]`: `undefined` past the end. -/
def index0 (rows : List JsVal) : JsVal :=
  match rows with
  | [] => .undefined
  | r :: _ => r

/-- Array `rows.length` as a JavaScript number. -/
def lengthOf (rows : List JsVal) : JsVal := .num (Int.ofNat rows.length)

/-! ## Promises and `Database.query` -/

/-- The state a promise (or a chain of handlers) ends in. -/
inductive PromiseState (α : Type) where
  | pending
  | fulfilled (v : α)
  | rejected (e : JsVal)

/-- A call of one of the two functions handed to a promise executor. -/
inductive Settle (α : Type) where
  | resolve (v : α)
  | reject (e : JsVal)

/-- The state of a promise after its executor made the given calls, in order:
the first call settles it, later calls are ignored. -/
def settled {α : Type} : List (Settle α) → PromiseState α
  | [] => .pending
  | .resolve v :: _ => .fulfilled v
  | .reject e :: _ => .rejected e

/-- The callback `(err, rows) => { if (err) return reject(err); resolve(rows); }`
of `Database.query` (lines 39-42): the calls it makes on `resolve`/`reject`. -/
def queryCallback {α : Type} (err : JsVal) (rows : α) : List (Settle α) :=
  if truthy err then [Settle.reject err] else [Settle.resolve rows]

/-- `Database.query(sql, args)` (lines 37-44). `driver sql args` is what
`this.connection.query` invokes the callback with, if it ever does. -/
def Database.query {α : Type} (driver : String → JsVal → Option (JsVal × α))
    (sql : String) (args : JsVal) : PromiseState α :=
  match driver sql args with
  | none => .pending
  | some (err, rows) => settled (queryCallback err rows)

/-! ## Effects: the event trace and the closure variable -/

/-- An observable call made by the code on a function it was handed or on an
external module: `done(null, false)` is `call "done" [null, bool false]`. -/
inductive Event where
  | call (callee : String) (args : List JsVal)

/-- The external collaborators of `app.js`. -/
structure World where
  /-- What the MySQL connection invokes the query callback with, if ever. -/
  driver : String → JsVal → Option (JsVal × List JsVal)
  /-- How the promise returned by `bcrypt.compare(data, hash)` settles. -/
  compare : JsVal → JsVal → PromiseState Bool
  /-- What calling the module object itself, `bcrypt(a, b, cb)`, does: it
  throws or returns a value, and may invoke `cb` on the way. -/
  bcryptCall : JsVal → JsVal → (JsVal → JsVal → Except JsVal JsVal) → Except JsVal JsVal
  /-- What `bcrypt.hash(data, rounds, cb)` with a callback does, likewise. -/
  bcryptHash : JsVal → JsVal → (JsVal → JsVal → Except JsVal JsVal) → Except JsVal JsVal
  /-- What a `findById(id, cb)` would invoke its callback with, if ever. -/
  findById : JsVal → Option (JsVal × JsVal)

/-- The mutable state of one run of the verify callback: the closure variable
declared by `let user;` (line 135) and the calls made so far. -/
structure Frame where
  user : JsVal
  trace : List Event

/-- A computation over a `Frame`. Its result is the state of the promise a
handler produces: `fulfilled v` when it returns `v` (or a promise fulfilled
with `v`), `rejected e` when it throws `e` (or returns a promise rejected with
`e`), `pending` when it returns a promise that never settles. -/
def Js (α : Type) : Type := Frame → PromiseState α × Frame

/-- Returning a value. -/
def Js.ret {α : Type} (v : α) : Js α := fun f => (.fulfilled v, f)

/-- Sequencing: statement `;` inside a handler and `.then(h)` on a promise.
The continuation runs only on a fulfilled result. -/
def Js.andThen {α β : Type} (p : Js α) (h : α → Js β) : Js β := fun f =>
  match p f with
  | (.fulfilled v, f1) => h v f1
  | (.rejected e, f1) => (.rejected e, f1)
  | (.pending, f1) => (.pending, f1)

/-- Rejection handler `.catch(h)`: runs only on a rejected result. -/
def Js.orCatch {α : Type} (p : Js α) (h : JsVal → Js α) : Js α := fun f =>
  match p f with
  | (.fulfilled v, f1) => (.fulfilled v, f1)
  | (.rejected e, f1) => h e f1
  | (.pending, f1) => (.pending, f1)

instance : Monad Js where
  pure := Js.ret
  bind := Js.andThen

/-- An expression that may throw. -/
def Js.eval {α : Type} : Except JsVal α → Js α
  | .ok v => Js.ret v
  | .error e => fun f => (.rejected e, f)

/-- Record a call. -/
def emit (e : Event) : Js Unit := fun f =>
  (.fulfilled (), { f with trace := f.trace ++ [e] })

/-- The passport callback `done(...)`. -/
def done (args : List JsVal) : Js Unit := emit (.call "done" args)

/-- The call `console.log(v)`. -/
def consoleLog (v : JsVal) : Js Unit := emit (.call "console.log" [v])

/-- Assignment `user = v`. -/
def setUser (v : JsVal) : Js Unit := fun f => (.fulfilled (), { f with user := v })

/-- Read of the closure variable `user`. -/
def getUser : Js JsVal := fun f => (.fulfilled f.user, f)

/-- The call `Chirp.query(sql, args)`: the driver is handed `sql` and `args`
(line 39) and the returned promise settles as `Database.query` says. -/
def Chirp.query (w : World) (sql : String) (args : JsVal) : Js (List JsVal) := fun f =>
  (Database.query w.driver sql args,
   { f with trace := f.trace ++ [.call "connection.query" [.str sql, args]] })

/-- The call `bcrypt.compare(data, hash)` without a callback. -/
def bcryptCompare (w : World) (data hash : JsVal) : Js Bool := fun f =>
  (w.compare data hash, { f with trace := f.trace ++ [.call "bcrypt.compare" [data, hash]] })

/-! ## The local-strategy verify callback (lines 134-152) -/

/-- The template literal of line 136: the e-mail is spliced into the text. -/
def sqlText (email : String) : String :=
  "SELECT * FROM User_Login WHERE email=\x27" ++ email ++ "\x27"

/-- The first `.then` handler (lines 137-143). -/
def onRows (w : World) (password : String) (rows : List JsVal) : Js Bool := do
  setUser (index0 rows)
  if !truthy (lengthOf rows) then done [.null, .bool false]
  let hash ← Js.eval (getProp (index0 rows) "password")
  bcryptCompare w (.str password) hash

/-- The second `.then` handler (lines 144-150). -/
def onMatch (isMatch : Bool) : Js Unit := do
  if isMatch then
    let user ← getUser
    done [.null, user]
  else
    done [.null, .bool false]

/-- The verify callback `(req, email, password, done) => ...`: the query is
called with the text alone, so its `args` is `undefined`. -/
def verify (w : World) (_req : JsVal) (email password : String) : Js Unit :=
  Js.orCatch
    (Js.andThen (Js.andThen (Chirp.query w (sqlText email) .undefined) (onRows w password)) onMatch)
    consoleLog

/-- The frame a run starts in: `user` not yet assigned, nothing called. -/
def Frame.init : Frame := { user := .undefined, trace := [] }

/-- All calls made by one run of the verify callback, in order. -/
def verifyTrace (w : World) (req : JsVal) (email password : String) : List Event :=
  (verify w req email password Frame.init).2.trace

/-- Whether an event is a call of `done`. -/
def Event.isDone : Event → Bool
  | .call callee _ => callee == "done"

/-- Whether an event is a call of `bcrypt.compare`. -/
def Event.isCompare : Event → Bool
  | .call callee _ => callee == "bcrypt.compare"

/-- The calls of `done` made by one run, in order. -/
def doneCalls (w : World) (req : JsVal) (email password : String) : List Event :=
  (verifyTrace w req email password).filter Event.isDone

/-- Whether an event is a call of the driver query. -/
def Event.isQuery : Event → Bool
  | .call callee _ => callee == "connection.query"

/-- The driver queries issued by one run, in order. -/
def queryCalls (w : World) (req : JsVal) (email password : String) : List Event :=
  (verifyTrace w req email password).filter Event.isQuery

/-- The calls of `bcrypt.compare` made by one run, in order. -/
def compareCalls (w : World) (req : JsVal) (email password : String) : List Event :=
  (verifyTrace w req email password).filter Event.isCompare

/-! ## The password helpers (lines 115-124) -/

/-- The callback `(err, result) => { if (err) throw err; return result; }`
handed to `bcrypt` by `validPassport` (lines 116-119). -/
def validPassportCallback (err result : JsVal) : Except JsVal JsVal :=
  if truthy err then .error err else .ok result

/-- The helper `validPassport(password, hash)` (lines 115-120): a block-bodied
arrow function whose only statement is the call `bcrypt(password, hash, cb)`.
The value of that call is dropped and there is no `return` in the body, so a
normal completion yields `undefined`. -/
def validPassport (w : World) (password hash : JsVal) : Except JsVal JsVal :=
  match w.bcryptCall password hash validPassportCallback with
  | .error e => .error e
  | .ok _ => .ok .undefined

/-- The helper `genPassword(password)` (lines 122-124): returns whatever
`bcrypt.hash(password, 10, (err, hash) => hash)` returns. -/
def genPassword (w : World) (password : JsVal) : Except JsVal JsVal :=
  w.bcryptHash password (.num 10) (fun _err hash => .ok hash)

/-- The expression `validPassport(s, genPassword(s))`: the argument is
evaluated first. -/
def hashThenVerify (w : World) (s : JsVal) : Except JsVal JsVal :=
  match genPassword w s with
  | .error e => .error e
  | .ok h => validPassport w s h

/-! ## Session serialisation (lines 156-171) -/

/-- The identifiers bound at module scope in `app.js` (the `const` and `class`
declarations of lines 1-207) and the Node globals the file uses. -/
def moduleScope : List String :=
  ["express", "mysql", "session", "MySQLStore", "passport", "LocalStrategy", "bcrypt",
   "app", "databaseConfig", "Database", "Chirp", "sessionStore", "validPassport",
   "genPassword", "PORT", "require", "process", "console"]

/-- Evaluation of an identifier reference: a `ReferenceError` when the name is
bound nowhere. -/
def resolveIdent (name : String) : Except JsVal Unit :=
  if name ∈ moduleScope then .ok ()
  else .error (.error "ReferenceError" (name ++ " is not defined"))

/-- JavaScript `ToString`, as applied by a template literal. -/
def jsToString : JsVal → String
  | .undefined => "undefined"
  | .null => "null"
  | .bool b => if b then "true" else "false"
  | .num n => toString n
  | .str s => s
  | .obj _ => "[object Object]"
  | .error name message => name ++ ": " ++ message

/-- The template literal of line 168. -/
def sessionSql (id : JsVal) : String :=
  "SELECT * FROM sessions WHERE session_id=\x27" ++ jsToString id ++ "\x27"

/-- The callback `cb(...)` handed to `serializeUser` / `deserializeUser`. -/
def cb (args : List JsVal) : Js Unit := emit (.call "cb" args)

/-- The function given to `passport.serializeUser` (lines 156-158). -/
def serializeUser (user : JsVal) : Js Unit := do
  let email ← Js.eval (getProp user "email")
  cb [.null, email]

/-- The function given to `passport.deserializeUser` (lines 160-171). The
first statement evaluates the identifier `User`. -/
def deserializeUser (w : World) (id : JsVal) : Js Unit := do
  Js.eval (resolveIdent "User")
  match w.findById id with
  | none => pure ()
  | some (err, user) => if truthy err then cb [err] else cb [.null, user]
  Js.orCatch
    (Js.andThen (Chirp.query w (sessionSql id) .undefined) (fun rows => cb [index0 rows]))
    consoleLog

/-- Whether an event is a call of `cb`. -/
def Event.isCb : Event → Bool
  | .call callee _ => callee == "cb"

/-! ## Sample worlds -/

/-- A stored record for `alice@example.com`. -/
def aliceRow : JsVal :=
  .obj [("email", .str "alice@example.com"), ("password", .str "$2b$10$alicehash")]

/-- A world whose table holds `aliceRow` and whose `bcrypt.compare` accepts
the secret `s3cr3t!` against the stored hash. -/
def sampleWorld : World where
  driver := fun sql _ =>
    if sql = sqlText "alice@example.com" then some (.null, [aliceRow]) else some (.null, [])
  compare := fun data _ =>
    match data with
    | .str s => .fulfilled (s == "s3cr3t!")
    | _ => .rejected (.error "Error" "data and hash must be strings")
  bcryptCall := fun _ _ _ => .error (.error "TypeError" "bcrypt is not a function")
  bcryptHash := fun _ _ _ => .ok .undefined
  findById := fun _ => none

/-- A world whose table is empty. -/
def emptyWorld : World where
  driver := fun _ _ => some (.null, [])
  compare := fun _ _ => .fulfilled false
  bcryptCall := fun _ _ _ => .error (.error "TypeError" "bcrypt is not a function")
  bcryptHash := fun _ _ _ => .ok .undefined
  findById := fun _ => none

/-- A world whose database is unreachable: every query fails. -/
def downWorld : World where
  driver := fun _ _ => some (.error "Error" "ECONNREFUSED", [])
  compare := fun _ _ => .fulfilled false
  bcryptCall := fun _ _ _ => .error (.error "TypeError" "bcrypt is not a function")
  bcryptHash := fun _ _ _ => .ok .undefined
  findById := fun _ => none

/-! ## Evaluation lemmas -/

theorem Js.bind_eq {α β : Type} (p : Js α) (h : α → Js β) : (p >>= h) = Js.andThen p h := rfl

theorem Js.pure_eq {α : Type} (v : α) : (pure v : Js α) = Js.ret v := rfl

theorem truthy_lengthOf_nil : truthy (lengthOf []) = false := rfl

theorem truthy_lengthOf_cons (r : JsVal) (rs : List JsVal) :
    truthy (lengthOf (r :: rs)) = true := by
  simp [truthy, lengthOf]
  omega

/-- The query promise is rejected: the handler of line 151 logs the error. -/
theorem verify_of_rejected (w : World) (req : JsVal) (email password : String) (e : JsVal)
    (hq : Database.query w.driver (sqlText email) .undefined = .rejected e) :
    verifyTrace w req email password =
      [.call "connection.query" [.str (sqlText email), .undefined],
       .call "console.log" [e]] := by
  simp [verifyTrace, verify, Js.orCatch, Js.andThen, Chirp.query, hq, consoleLog, emit,
    Frame.init]

/-- The query promise never settles: no handler runs. -/
theorem verify_of_pending (w : World) (req : JsVal) (email password : String)
    (hq : Database.query w.driver (sqlText email) .undefined = .pending) :
    verifyTrace w req email password =
      [.call "connection.query" [.str (sqlText email), .undefined]] := by
  simp [verifyTrace, verify, Js.orCatch, Js.andThen, Chirp.query, hq, Frame.init]

/-- The query promise is fulfilled with no row: `done(null, false)` is called,
then reading `rows[0].password` throws and the handler of line 151 logs. -/
theorem verify_of_empty (w : World) (req : JsVal) (email password : String)
    (hq : Database.query w.driver (sqlText email) .undefined = .fulfilled []) :
    verifyTrace w req email password =
      [.call "connection.query" [.str (sqlText email), .undefined],
       .call "done" [.null, .bool false],
       .call "console.log"
         [.error "TypeError" ("Cannot read property " ++ "password" ++ " of undefined")]] := by
  simp [verifyTrace, verify, Js.orCatch, Js.andThen, Chirp.query, hq, consoleLog, emit,
    Frame.init, onRows, Js.bind_eq, Js.pure_eq, setUser, index0, truthy_lengthOf_nil, done,
    Js.eval, getProp]

/-- The query promise is fulfilled with a first row whose `password` cannot be
read: nothing but the log happens. -/
theorem verify_of_unreadable (w : World) (req : JsVal) (email password : String)
    (r : JsVal) (rs : List JsVal) (e : JsVal)
    (hq : Database.query w.driver (sqlText email) .undefined = .fulfilled (r :: rs))
    (hh : getProp r "password" = .error e) :
    verifyTrace w req email password =
      [.call "connection.query" [.str (sqlText email), .undefined],
       .call "console.log" [e]] := by
  simp [verifyTrace, verify, Js.orCatch, Js.andThen, Chirp.query, hq, consoleLog, emit,
    Frame.init, onRows, Js.bind_eq, Js.pure_eq, setUser, index0, truthy_lengthOf_cons,
    Js.eval, hh, Js.ret]

/-- The query promise is fulfilled with a first row whose `password` reads as
`h`: `bcrypt.compare` is called and its settlement decides what follows. -/
theorem verify_of_row (w : World) (req : JsVal) (email password : String)
    (r : JsVal) (rs : List JsVal) (h : JsVal)
    (hq : Database.query w.driver (sqlText email) .undefined = .fulfilled (r :: rs))
    (hh : getProp r "password" = .ok h) :
    verifyTrace w req email password =
      [.call "connection.query" [.str (sqlText email), .undefined],
       .call "bcrypt.compare" [.str password, h]] ++
      (match w.compare (.str password) h with
       | .fulfilled true => [.call "done" [.null, r]]
       | .fulfilled false => [.call "done" [.null, .bool false]]
       | .rejected e => [.call "console.log" [e]]
       | .pending => []) := by
  cases hc : w.compare (.str password) h with
  | pending =>
    simp [verifyTrace, verify, Js.orCatch, Js.andThen, Chirp.query, hq, consoleLog, emit,
      Frame.init, onRows, Js.bind_eq, Js.pure_eq, setUser, index0, truthy_lengthOf_cons,
      Js.eval, hh, Js.ret, bcryptCompare, hc]
  | rejected e =>
    simp [verifyTrace, verify, Js.orCatch, Js.andThen, Chirp.query, hq, consoleLog, emit,
      Frame.init, onRows, Js.bind_eq, Js.pure_eq, setUser, index0, truthy_lengthOf_cons,
      Js.eval, hh, Js.ret, bcryptCompare, hc]
  | fulfilled b =>
    cases b <;>
    simp [verifyTrace, verify, Js.orCatch, Js.andThen, Chirp.query, hq, emit,
      Frame.init, onRows, Js.bind_eq, Js.pure_eq, setUser, index0, truthy_lengthOf_cons,
      Js.eval, hh, Js.ret, bcryptCompare, hc, onMatch, getUser, done]

/-! ## The verify callback: accepted and rejected logins -/

/-- C1: when the credential query resolves with a non-empty row list and
`bcrypt.compare(password, rows[0].password)` resolves to `true`, `done` is
called exactly once, with a `null` error and `rows[0]`. -/
theorem verify_match_calls_done_with_record (w : World) (req : JsVal)
    (email password : String) (rows : List JsVal) (h : JsVal)
    (hq : Database.query w.driver (sqlText email) .undefined = .fulfilled rows)
    (hne : rows ≠ [])
    (hh : getProp (index0 rows) "password" = .ok h)
    (hc : w.compare (.str password) h = .fulfilled true) :
    doneCalls w req email password = [.call "done" [.null, index0 rows]] := by
  cases rows with
  | nil => exact absurd rfl hne
  | cons r rs =>
    simp only [index0] at hh
    rw [doneCalls, verify_of_row w req email password r rs h hq hh, hc]
    rfl

/-- Alice logging in with her secret: the hypotheses of C1 hold and `done(null, aliceRow)` is the only `done` call. -/
theorem verify_match_calls_done_with_record_witness :
    Database.query sampleWorld.driver (sqlText "alice@example.com") .undefined
        = .fulfilled [aliceRow] ∧
      doneCalls sampleWorld .null "alice@example.com" "s3cr3t!"
        = [.call "done" [.null, aliceRow]] :=
  ⟨rfl, verify_match_calls_done_with_record sampleWorld .null "alice@example.com" "s3cr3t!"
    [aliceRow] (.str "$2b$10$alicehash") rfl (by simp) rfl rfl⟩

/-- C2: when the credential query resolves with a non-empty row list and
`bcrypt.compare(password, rows[0].password)` resolves to `false`, `done` is
called exactly once, as `done(null, false)`, and no call of `done` in the run
has any other arguments. -/
theorem verify_mismatch_calls_done_false (w : World) (req : JsVal)
    (email password : String) (rows : List JsVal) (h : JsVal)
    (hq : Database.query w.driver (sqlText email) .undefined = .fulfilled rows)
    (hne : rows ≠ [])
    (hh : getProp (index0 rows) "password" = .ok h)
    (hc : w.compare (.str password) h = .fulfilled false) :
    doneCalls w req email password = [.call "done" [.null, .bool false]] ∧
      ∀ args, Event.call "done" args ∈ verifyTrace w req email password →
        args = [.null, .bool false] := by
  cases rows with
  | nil => exact absurd rfl hne
  | cons r rs =>
    simp only [index0] at hh
    rw [doneCalls, verify_of_row w req email password r rs h hq hh, hc]
    refine ⟨rfl, ?_⟩
    intro args hmem
    simp at hmem
    exact hmem

/-- Alice logging in with a wrong secret: the hypotheses of C2 hold and `done(null, false)` is the only `done` call. -/
theorem verify_mismatch_calls_done_false_witness :
    Database.query sampleWorld.driver (sqlText "alice@example.com") .undefined
        = .fulfilled [aliceRow] ∧
      doneCalls sampleWorld .null "alice@example.com" "wrong-pass"
        = [.call "done" [.null, .bool false]] :=
  ⟨rfl, (verify_mismatch_calls_done_false sampleWorld .null "alice@example.com" "wrong-pass"
    [aliceRow] (.str "$2b$10$alicehash") rfl (by simp) rfl rfl).1⟩

/-- C3: a login whose query resolves with an empty row list and a login whose
record is found but whose comparison resolves to `false` produce the same
sequence of `done` calls: the single two-argument call `done(null, false)`. -/
theorem absent_and_mismatch_same_done_calls (w1 w2 : World) (req1 req2 : JsVal)
    (email1 password1 email2 password2 : String) (rows : List JsVal) (h : JsVal)
    (hq1 : Database.query w1.driver (sqlText email1) .undefined = .fulfilled [])
    (hq2 : Database.query w2.driver (sqlText email2) .undefined = .fulfilled rows)
    (hne : rows ≠ [])
    (hh : getProp (index0 rows) "password" = .ok h)
    (hc : w2.compare (.str password2) h = .fulfilled false) :
    doneCalls w1 req1 email1 password1 = doneCalls w2 req2 email2 password2 ∧
      doneCalls w1 req1 email1 password1 = [.call "done" [.null, .bool false]] := by
  have habsent : doneCalls w1 req1 email1 password1 = [.call "done" [.null, .bool false]] := by
    rw [doneCalls, verify_of_empty w1 req1 email1 password1 hq1]
    rfl
  have hwrong : doneCalls w2 req2 email2 password2 = [.call "done" [.null, .bool false]] := by
    cases rows with
    | nil => exact absurd rfl hne
    | cons r rs =>
      simp only [index0] at hh
      rw [doneCalls, verify_of_row w2 req2 email2 password2 r rs h hq2 hh, hc]
      rfl
  exact ⟨habsent.trans hwrong.symm, habsent⟩

/-- Scenarios B and C side by side: unregistered Bob and Alice with a wrong secret give the same `done` calls. -/
theorem absent_and_mismatch_same_done_calls_witness :
    doneCalls sampleWorld .null "bob@example.com" "anything"
        = doneCalls sampleWorld .null "alice@example.com" "wrong-pass" ∧
      doneCalls sampleWorld .null "bob@example.com" "anything"
        = [.call "done" [.null, .bool false]] :=
  absent_and_mismatch_same_done_calls sampleWorld sampleWorld .null .null
    "bob@example.com" "anything" "alice@example.com" "wrong-pass"
    [aliceRow] (.str "$2b$10$alicehash") rfl rfl (by simp) rfl rfl

/-- C4 fails as stated: for the unregistered `bob@example.com` the query
resolves with an empty row list and the run makes no `bcrypt.compare` call. -/
theorem absent_identifier_compare_counterexample :
    Database.query sampleWorld.driver (sqlText "bob@example.com") .undefined = .fulfilled [] ∧
      compareCalls sampleWorld .null "bob@example.com" "anything" = [] :=
  ⟨rfl, rfl⟩

/-- C4 amended: when the credential query resolves with an empty row list the
run reports `done(null, false)` once and makes no `bcrypt.compare` call. -/
theorem absent_identifier_no_compare (w : World) (req : JsVal) (email password : String)
    (hq : Database.query w.driver (sqlText email) .undefined = .fulfilled []) :
    compareCalls w req email password = [] ∧
      doneCalls w req email password = [.call "done" [.null, .bool false]] := by
  rw [compareCalls, doneCalls, verify_of_empty w req email password hq]
  exact ⟨rfl, rfl⟩

/-- An empty table: the query resolves with no row and no comparison is made. -/
theorem absent_identifier_no_compare_witness :
    Database.query emptyWorld.driver (sqlText "bob@example.com") .undefined = .fulfilled [] ∧
      compareCalls emptyWorld .null "bob@example.com" "anything" = [] :=
  ⟨rfl, (absent_identifier_no_compare emptyWorld .null "bob@example.com" "anything" rfl).1⟩

/-! ## The credential query -/

/-- The e-mail can be read back from the query text. -/
theorem sqlText_injective (e1 e2 : String) (h : sqlText e1 = sqlText e2) : e1 = e2 := by
  have hd := congrArg String.data h
  simp only [sqlText, String.data_append, List.append_assoc] at hd
  have h1 := List.append_cancel_left hd
  have h2 := List.append_cancel_right h1
  exact String.ext h2

/-- Every run issues exactly one driver query, first, with `undefined` args. -/
theorem queryCalls_eq (w : World) (req : JsVal) (email password : String) :
    queryCalls w req email password =
      [.call "connection.query" [.str (sqlText email), .undefined]] := by
  unfold queryCalls
  cases hq : Database.query w.driver (sqlText email) .undefined with
  | pending => rw [verify_of_pending w req email password hq]; rfl
  | rejected e => rw [verify_of_rejected w req email password e hq]; rfl
  | fulfilled rows =>
    cases rows with
    | nil => rw [verify_of_empty w req email password hq]; rfl
    | cons r rs =>
      cases hh : getProp r "password" with
      | error e => rw [verify_of_unreadable w req email password r rs e hq hh]; rfl
      | ok h =>
        rw [verify_of_row w req email password r rs h hq hh]
        cases w.compare (.str password) h with
        | pending => rfl
        | rejected e => rfl
        | fulfilled b => cases b <;> rfl

/-- C5 fails as stated: two e-mails give two different query texts, and the
e-mail sits inside the text while the args handed to the driver are
`undefined`. -/
theorem query_text_counterexample :
    sqlText "alice@example.com" ≠ sqlText "bob@example.com" ∧
      queryCalls sampleWorld .null "bob@example.com" "anything" =
        [.call "connection.query"
          [.str "SELECT * FROM User_Login WHERE email=\x27bob@example.com\x27", .undefined]] :=
  ⟨by decide, rfl⟩

/-- C5 amended: every run issues one driver query whose text is the fixed
prefix, the submitted e-mail verbatim and a closing quote, with `undefined`
as args; the text determines the e-mail, so two different e-mails never give
the same text. -/
theorem query_text_embeds_email (w : World) (req : JsVal) (email password : String) :
    queryCalls w req email password =
        [.call "connection.query"
          [.str ("SELECT * FROM User_Login WHERE email=\x27" ++ email ++ "\x27"),
           .undefined]] ∧
      ∀ other : String, sqlText other = sqlText email → other = email :=
  ⟨queryCalls_eq w req email password, fun other h => sqlText_injective other email h⟩

/-- An injection attempt: the quote in the submitted e-mail ends up in the
query text, and the text leads back to that e-mail alone. -/
theorem query_text_embeds_email_witness :
    queryCalls sampleWorld .null "\x27 OR \x271\x27=\x271" "anything" =
        [.call "connection.query"
          [.str "SELECT * FROM User_Login WHERE email=\x27\x27 OR \x271\x27=\x271\x27",
           .undefined]] ∧
      ∀ other : String, sqlText other = sqlText "\x27 OR \x271\x27=\x271" →
        other = "\x27 OR \x271\x27=\x271" :=
  query_text_embeds_email sampleWorld .null "\x27 OR \x271\x27=\x271" "anything"

/-! ## Failures of the query and of the comparison -/

/-- C6 fails as stated: with the database down the query is rejected and the
run makes no call of `done` at all. -/
theorem query_failure_counterexample :
    Database.query downWorld.driver (sqlText "alice@example.com") .undefined
        = .rejected (.error "Error" "ECONNREFUSED") ∧
      doneCalls downWorld .null "alice@example.com" "s3cr3t!" = [] :=
  ⟨rfl, rfl⟩

/-- C6 amended: when the credential query is rejected with `e`, the run logs
`e` with `console.log` and calls `done` not at all, neither with an error nor
as `done(null, false)`. -/
theorem query_failure_logged_only (w : World) (req : JsVal) (email password : String)
    (e : JsVal)
    (hq : Database.query w.driver (sqlText email) .undefined = .rejected e) :
    verifyTrace w req email password =
        [.call "connection.query" [.str (sqlText email), .undefined],
         .call "console.log" [e]] ∧
      doneCalls w req email password = [] := by
  rw [doneCalls, verify_of_rejected w req email password e hq]
  exact ⟨rfl, rfl⟩

/-- The database down: the query is rejected and `done` is not called. -/
theorem query_failure_logged_only_witness :
    Database.query downWorld.driver (sqlText "bob@example.com") .undefined
        = .rejected (.error "Error" "ECONNREFUSED") ∧
      doneCalls downWorld .null "bob@example.com" "anything" = [] :=
  ⟨rfl, (query_failure_logged_only downWorld .null "bob@example.com" "anything"
    (.error "Error" "ECONNREFUSED") rfl).2⟩

/-- C9: in every run, a call of `done` other than `done(null, false)` is made
only if the credential query resolved with a non-empty row list and
`bcrypt.compare(password, rows[0].password)` resolved to `true`, and then it
is `done(null, rows[0])`. So a rejected query, an empty row list or a failing
comparison never lead to `done(null, user)`. -/
theorem verify_fails_closed (w : World) (req : JsVal) (email password : String)
    (args : List JsVal)
    (hmem : Event.call "done" args ∈ verifyTrace w req email password)
    (huser : args ≠ [.null, .bool false]) :
    ∃ rows h, Database.query w.driver (sqlText email) .undefined = .fulfilled rows ∧
      rows ≠ [] ∧
      getProp (index0 rows) "password" = .ok h ∧
      w.compare (.str password) h = .fulfilled true ∧
      args = [.null, index0 rows] := by
  cases hq : Database.query w.driver (sqlText email) .undefined with
  | pending =>
    rw [verify_of_pending w req email password hq] at hmem
    simp at hmem
  | rejected e =>
    rw [verify_of_rejected w req email password e hq] at hmem
    simp at hmem
  | fulfilled rows =>
    cases rows with
    | nil =>
      rw [verify_of_empty w req email password hq] at hmem
      simp at hmem
      exact absurd hmem huser
    | cons r rs =>
      cases hh : getProp r "password" with
      | error e =>
        rw [verify_of_unreadable w req email password r rs e hq hh] at hmem
        simp at hmem
      | ok h =>
        rw [verify_of_row w req email password r rs h hq hh] at hmem
        cases hc : w.compare (.str password) h with
        | pending => rw [hc] at hmem; simp at hmem
        | rejected e => rw [hc] at hmem; simp at hmem
        | fulfilled b =>
          cases b with
          | false =>
            rw [hc] at hmem
            simp at hmem
            exact absurd hmem huser
          | true =>
            rw [hc] at hmem
            simp at hmem
            exact ⟨r :: rs, h, rfl, by simp, hh, hc, hmem⟩

/-- Alice logging in with her secret: the one `done` call with a record comes with a found row and a `true` comparison. -/
theorem verify_fails_closed_witness :
    ∃ rows h,
      Database.query sampleWorld.driver (sqlText "alice@example.com") .undefined
        = .fulfilled rows ∧
      rows ≠ [] ∧
      getProp (index0 rows) "password" = .ok h ∧
      sampleWorld.compare (.str "s3cr3t!") h = .fulfilled true ∧
      [JsVal.null, aliceRow] = [.null, index0 rows] :=
  verify_fails_closed sampleWorld .null "alice@example.com" "s3cr3t!" [.null, aliceRow]
    (by
      rw [verify_of_row sampleWorld .null "alice@example.com" "s3cr3t!" aliceRow []
        (.str "$2b$10$alicehash") rfl rfl]
      simp [sampleWorld])
    (by simp [aliceRow])

/-! ## `Database.query` -/

/-- C10: when the driver invokes the callback with `(err, rows)`, a falsy
`err` makes the callback call `resolve(rows)` and nothing else, so the promise
is fulfilled with those rows; a truthy `err` makes it call `reject(err)` and
nothing else, so the promise is rejected with that error and `resolve` is not
called. -/
theorem query_settles_as_driver_says {α : Type}
    (driver : String → JsVal → Option (JsVal × α)) (sql : String) (args err : JsVal)
    (rows : α) (hd : driver sql args = some (err, rows)) :
    (truthy err = false →
        queryCallback err rows = [Settle.resolve rows] ∧
        Database.query driver sql args = .fulfilled rows) ∧
      (truthy err = true →
        queryCallback err rows = [Settle.reject err] ∧
        Database.query driver sql args = .rejected err) := by
  constructor
  · intro herr
    simp [Database.query, hd, queryCallback, herr, settled]
  · intro herr
    simp [Database.query, hd, queryCallback, herr, settled]

/-- A driver reply with a `null` error fulfils the promise, one with an error object rejects it. -/
theorem query_settles_as_driver_says_witness :
    (sampleWorld.driver (sqlText "alice@example.com") .undefined = some (.null, [aliceRow]) ∧
      Database.query sampleWorld.driver (sqlText "alice@example.com") .undefined
        = .fulfilled [aliceRow]) ∧
    (downWorld.driver "SELECT 1" .undefined = some (.error "Error" "ECONNREFUSED", []) ∧
      Database.query downWorld.driver "SELECT 1" .undefined
        = .rejected (.error "Error" "ECONNREFUSED")) :=
  ⟨⟨rfl, ((query_settles_as_driver_says sampleWorld.driver (sqlText "alice@example.com")
      .undefined .null [aliceRow] rfl).1 rfl).2⟩,
   ⟨rfl, ((query_settles_as_driver_says downWorld.driver "SELECT 1" .undefined
      (.error "Error" "ECONNREFUSED") [] rfl).2 rfl).2⟩⟩

/-! ## The password helpers -/

/-- C7, as the code behaves: whatever `bcrypt` does, `validPassport` either
throws or returns `undefined`, so neither `validPassport(s, h)` for any `h`
nor `validPassport(s, genPassword(s))` ever returns `true`. -/
theorem validPassport_never_true (w : World) (s : JsVal) :
    (∀ h, validPassport w s h = .ok .undefined ∨ ∃ e, validPassport w s h = .error e) ∧
      (∀ h, validPassport w s h ≠ .ok (.bool true)) ∧
      hashThenVerify w s ≠ .ok (.bool true) := by
  have hshape : ∀ h, validPassport w s h = .ok .undefined ∨
      ∃ e, validPassport w s h = .error e := by
    intro h
    unfold validPassport
    cases w.bcryptCall s h validPassportCallback with
    | error e => exact Or.inr ⟨e, rfl⟩
    | ok v => exact Or.inl rfl
  have hne : ∀ h, validPassport w s h ≠ .ok (.bool true) := by
    intro h heq
    rcases hshape h with h1 | ⟨e, h1⟩
    · rw [h1] at heq
      cases heq
    · rw [h1] at heq
      cases heq
  refine ⟨hshape, hne, ?_⟩
  unfold hashThenVerify
  cases genPassword w s with
  | error e => intro heq; cases heq
  | ok h => exact hne h

/-! ## Session serialisation -/

/-- C8, first half and the code at the second: `serializeUser` calls `cb` once
as `cb(null, u.email)`; `deserializeUser` applied to that identifier throws a
`ReferenceError` on the unbound identifier `User` before any call of `cb` or
of the database. -/
theorem deserializeUser_throws (w : World) (fields : List (String × JsVal)) :
    serializeUser (.obj fields) Frame.init =
        (.fulfilled (),
         { user := .undefined, trace := [.call "cb" [.null, lookupField "email" fields]] }) ∧
      deserializeUser w (lookupField "email" fields) Frame.init =
        (.rejected (.error "ReferenceError" "User is not defined"), Frame.init) := by
  constructor
  · simp [serializeUser, Js.bind_eq, Js.andThen, Js.eval, getProp, Js.ret, cb, emit,
      Frame.init]
  · simp [deserializeUser, Js.bind_eq, Js.andThen, Js.eval, resolveIdent, moduleScope]

end AppJs
